import Mathlib

/-!
Shallow embedding of fuddly's `framework/target.py` (the `Target` and
`TargetFeedback` base classes and the `NetworkTarget` class), together with
theorems settling the frozen claims about it.

Conventions of the embedding:
* Python dictionaries become Lean functions into `Option` (a missing key is
  `none`; reading a missing key is a `KeyError`).
* Socket handles are abstract natural numbers handed out by a fresh-handle
  counter `nextHandle`; a call to `close()` is recorded in the ghost field
  `closedHandles`.
* Network outcomes (bind/connect success, bytes accepted by a write) are
  supplied as explicit oracle parameters, since the embedding is of the
  program, not of the operating system.
* A Python `assert` or `raise` that aborts a method is returned as
  `some errName` in the first component of the result, with the state as it
  was when the exception escaped.
* Times (timestamps, timeouts, delays) are rationals or abstract naturals.
-/

namespace Fuddly

/-- Linux value of `socket.SOCK_STREAM`. -/
def SOCK_STREAM : Nat := 1

/-- Linux value of `socket.SOCK_DGRAM`. -/
def SOCK_DGRAM : Nat := 2

/-- Linux value of `socket.SOCK_RAW`. -/
def SOCK_RAW : Nat := 3

/-- Linux value of `socket.AF_INET`. -/
def AF_INET : Nat := 2

/-- Linux value of `socket.AF_PACKET`. -/
def AF_PACKET : Nat := 17

/-- Byte swap of a 16-bit value, as `socket.ntohs` on a little-endian host. -/
def ntohs (x : Nat) : Nat := (x % 256) * 256 + (x / 256) % 256

/-- Value of a Python expression that can be `None`, a `bool`, or a socket
handle; `_connect_to_target` returns all three. -/
inductive PyValue where
  | noneV : PyValue
  | boolV : Bool → PyValue
  | sockV : Nat → PyValue
deriving DecidableEq, Repr

/-- Key into the per-semantics dictionaries `_host`, `_port`, `_socket_type`:
either the reserved `UNKNOWN_SEMANTIC` (42) or a user semantics tag. -/
inductive SemKey where
  | unknown : SemKey
  | tag : String → SemKey
deriving DecidableEq, Repr

/-- Characters removed by Python's `str.strip()` with no argument
(space, tab, newline, carriage return, vertical tab, form feed). -/
def pyWhitespace (c : Char) : Bool :=
  c == ' ' || c == Char.ofNat 9 || c == Char.ofNat 10 || c == Char.ofNat 13 ||
  c == Char.ofNat 11 || c == Char.ofNat 12

/-- Python's `s.strip()`: drop leading and trailing whitespace. -/
def pyStrip (s : String) : String :=
  String.mk (((s.data.dropWhile pyWhitespace).reverse.dropWhile pyWhitespace).reverse)

/-- Lookup in an association list used to embed an `OrderedDict`. -/
def lookupRef {α : Type} (l : List (String × List α)) (ref : String) : Option (List α) :=
  (l.find? (fun p => p.1 = ref)).map Prod.snd

/-- Replace the value stored under `ref` in an association list. -/
def setRef {α : Type} (l : List (String × List α)) (ref : String) (v : List α) :
    List (String × List α) :=
  l.map (fun p => if p.1 = ref then (p.1, v) else p)

/-- State of class `TargetFeedback` (target.py, lines 246-304):
`_feedback_collector` and `_feedback_collector_tstamped` are parallel ordered
dictionaries mapping a reference id to fragments and timestamps,
`_err_code` is the integer error code and `_tstamped_bstring` the
"last raw bytes + timestamp" slot.  The `fbk_lock` of the source only guards
the in-place mutation and has no sequential content. -/
structure TargetFeedback where
  collector : List (String × List String)
  collectorTs : List (String × List Nat)
  errCode : Int
  tstampedBytes : Option (List Nat × Nat)
deriving DecidableEq, Repr

/-- State of `TargetFeedback.__init__` (line 249): `cleanup()` puts the error
code to 0 and the byte slot to `None`, then `set_bytes(b'')` fills the byte
slot with the empty string at the current time (abstract time 0 here). -/
def fbEmpty : TargetFeedback :=
  { collector := [], collectorTs := [], errCode := 0, tstampedBytes := some ([], 0) }

/-- `TargetFeedback.add_fbk_from(ref, fbk)` (target.py, lines 255-263):
if `ref` is new, both ordered dictionaries get an empty list for it; then the
fragment is appended (with the current time in the parallel list) unless
`fbk.strip()` is already a member of the fragment list stored for `ref`.
Note the source tests membership of the *stripped* fragment in the whole list
of *unstripped* stored fragments. -/
def addFbkFrom (fb : TargetFeedback) (ref : String) (fbk : String) (now : Nat) :
    TargetFeedback :=
  let col := match lookupRef fb.collector ref with
    | some _ => fb.collector
    | none => fb.collector ++ [(ref, [])]
  let colTs := match lookupRef fb.collectorTs ref with
    | some _ => fb.collectorTs
    | none => fb.collectorTs ++ [(ref, [])]
  let cur := (lookupRef col ref).getD []
  if cur.contains (pyStrip fbk) then
    { fb with collector := col, collectorTs := colTs }
  else
    { fb with
      collector := setRef col ref (cur ++ [fbk]),
      collectorTs := setRef colTs ref (((lookupRef colTs ref).getD []) ++ [now]) }

/-- `TargetFeedback.set_error_code` (line 284). -/
def setErrorCode (e : Int) (fb : TargetFeedback) : TargetFeedback :=
  { fb with errCode := e }

/-- State of the base class `Target` relevant to `set_feedback_timeout`:
the class attribute `feedback_timeout`, initially `None` (line 57). -/
structure BaseTarget where
  feedbackTimeout : Option ℚ
deriving DecidableEq, Repr

/-- `Target.set_feedback_timeout` (target.py, lines 188-198): `assert
fbk_timeout >= 0`, then store the value; `_set_feedback_timeout_specific` of
the base class (lines 200-208) is `pass`.  The assertion precedes the
assignment, so a failing call leaves the state untouched. -/
def setFeedbackTimeoutBase (t : ℚ) (s : BaseTarget) : Option String × BaseTarget :=
  if 0 ≤ t then (none, { s with feedbackTimeout := some t })
  else (some "AssertionError", s)

/-- `NetworkTarget._is_valid_socket_type` (target.py, lines 396-406): a
3-element tuple is refused unless its second element is `SOCK_RAW`, a
2-element tuple is refused unless its second element is `SOCK_STREAM` or
`SOCK_DGRAM`; a tuple of any other length falls through to `return True`. -/
def isValidSocketType (socketType : List Nat) : Bool :=
  match socketType with
  | [_, sockType, _] => sockType = SOCK_RAW
  | [_, sockType] => sockType = SOCK_STREAM ∨ sockType = SOCK_DGRAM
  | _ => true

/-- The `'Default Feedback Socket'` identifier (line 380). -/
def defaultFbkSocketId : String := "Default Feedback Socket"

/-- `NetworkTarget._INTERNALS_ID` (line 324). -/
def internalsId : String := "NetworkTarget()"

/-- State of a `NetworkTarget` instance.  Python dictionaries are functions
into `Option`; the socket registries populated by `start()` are present from
construction with empty values (in Python the attributes spring into
existence on first assignment).  `nextHandle` and `closedHandles` are ghost
fields of the embedding: the fresh-socket supply and the record of `close()`
calls.  The fields for the server-side listener machinery
(`_server_sock2hp`, `_server_thread_share`, `_dynamic_interfaces`) and the
payload-side MAC-injection configuration are not modelled: no claim touches
them. -/
structure NT where
  hostMap : SemKey → Option String
  portMap : SemKey → Option Nat
  socketTypeMap : SemKey → Option (List Nat)
  knownSemantics : List String
  multipleDestination : Bool
  serverMode : String × Nat → Option Bool
  holdConnection : String × Nat → Option Bool
  defaultFbkId : String × Nat → Option String
  additionalFbkDesc : List (String × (String × Nat × List Nat × Option Nat × Bool))
  defaultAdditionalFbkId : Nat
  sendingDelay : ℚ
  feedbackTimeout : Option ℚ
  fbTimeout : ℚ
  feedbackLength : Option Nat
  hclientHp2sock : String × Nat → Option Nat
  hclientSock2hp : Nat → Option (String × Nat)
  lastClientSock2hp : Nat → Option (String × Nat)
  lastClientHp2sock : String × Nat → Option Nat
  additionalFbkSockets : List Nat
  additionalFbkIds : List (Nat × String)
  additionalFbkLengths : List (Nat × Option Nat)
  feedbackHandled : Option Bool
  feedbackThreadQty : Nat
  feedbackCompleteCpt : Nat
  sendingId : Nat
  firstSendDataCall : Bool
  threadCpt : Nat
  lastAckDate : Option Nat
  feedback : TargetFeedback
  nextHandle : Nat
  closedHandles : List Nat

/-- A blank `NT` record used as the seed of the constructor and as the
`Option.getD` default when extracting a constructed state. -/
def ntEmpty : NT :=
  { hostMap := fun _ => none, portMap := fun _ => none,
    socketTypeMap := fun _ => none,
    knownSemantics := [], multipleDestination := false,
    serverMode := fun _ => none, holdConnection := fun _ => none,
    defaultFbkId := fun _ => none,
    additionalFbkDesc := [], defaultAdditionalFbkId := 1,
    sendingDelay := 0, feedbackTimeout := none, fbTimeout := 0,
    feedbackLength := none,
    hclientHp2sock := fun _ => none, hclientSock2hp := fun _ => none,
    lastClientSock2hp := fun _ => none, lastClientHp2sock := fun _ => none,
    additionalFbkSockets := [], additionalFbkIds := [],
    additionalFbkLengths := [],
    feedbackHandled := none, feedbackThreadQty := 0, feedbackCompleteCpt := 0,
    sendingId := 0, firstSendDataCall := true, threadCpt := 0,
    lastAckDate := none, feedback := fbEmpty,
    nextHandle := 0, closedHandles := [] }

/-- `NetworkTarget._set_feedback_timeout_specific` (target.py, lines
438-447): store `_feedback_timeout`; a zero timeout deliberately leaves
`_sending_delay` untouched (residual-feedback special case); otherwise the
delay is clamped to `max(fbk_timeout - 0.2, 0)` only when it exceeds the new
timeout. -/
def setFeedbackTimeoutSpecificNT (t : ℚ) (s : NT) : NT :=
  let s1 := { s with fbTimeout := t }
  if t = 0 then s1
  else if s1.sendingDelay > s1.fbTimeout then
    { s1 with sendingDelay := max (s1.fbTimeout - 1/5) 0 }
  else s1

/-- `Target.set_feedback_timeout` as inherited by `NetworkTarget` (lines
188-198, dispatching to `_set_feedback_timeout_specific` of lines 438-447):
`assert fbk_timeout >= 0`, store `feedback_timeout`, then run the
network-specific part. -/
def setFeedbackTimeoutNT (t : ℚ) (s : NT) : Option String × NT :=
  if 0 ≤ t then
    (none, setFeedbackTimeoutSpecificNT t { s with feedbackTimeout := some t })
  else (some "AssertionError", s)

/-- `NetworkTarget.set_timeout` (target.py, lines 423-436): `assert
sending_delay < fbk_timeout`, store `_sending_delay`, then
`set_feedback_timeout(fbk_timeout)`. -/
def setTimeout (fbkTimeout sendingDelay : ℚ) (s : NT) : Option String × NT :=
  if sendingDelay < fbkTimeout then
    setFeedbackTimeoutNT fbkTimeout { s with sendingDelay := sendingDelay }
  else (some "AssertionError", s)

/-- `NetworkTarget.__init__` (target.py, lines 326-393): validate the socket
type (raising `ValueError` otherwise), seed the per-semantics dictionaries
with the default interface under both `UNKNOWN_SEMANTIC` and
`data_semantics`, seed `server_mode`, `hold_connection` and
`_default_fbk_id` under `(host, port)`, and call
`set_timeout(fbk_timeout=6, sending_delay=4)`.  The MAC-address fields and
lock objects of the source carry no sequential state and are not modelled. -/
def mkNetworkTarget (host : String) (port : Nat) (socketType : List Nat)
    (dataSemantics : SemKey) (serverMode holdConn : Bool) : Except String NT :=
  if isValidSocketType socketType = false then Except.error "ValueError"
  else
    let s0 : NT := { ntEmpty with
      hostMap := fun k =>
        if k = SemKey.unknown ∨ k = dataSemantics then some host else none,
      portMap := fun k =>
        if k = SemKey.unknown ∨ k = dataSemantics then some port else none,
      socketTypeMap := fun k =>
        if k = SemKey.unknown ∨ k = dataSemantics then some socketType else none,
      defaultFbkId := fun x =>
        if x = (host, port) then
          some (defaultFbkSocketId ++ " - " ++ host ++ ":" ++ toString port)
        else none,
      serverMode := fun x => if x = (host, port) then some serverMode else none,
      holdConnection := fun x => if x = (host, port) then some holdConn else none }
    match setTimeout 6 4 s0 with
    | (none, s1) => Except.ok s1
    | (some e, _) => Except.error e

/-- `NetworkTarget.register_new_interface` (target.py, lines 408-421):
validate the socket type (raising `ValueError`), set multi-destination mode,
store the endpoint under the tag, append the tag to `known_semantics`, and
(re)store `server_mode`, `_default_fbk_id` and `hold_connection` under
`(host, port)`. -/
def registerNewInterface (host : String) (port : Nat) (socketType : List Nat)
    (dataSemantics : String) (serverMode holdConn : Bool) (s : NT) :
    Option String × NT :=
  if isValidSocketType socketType = false then (some "ValueError", s)
  else
    (none, { s with
      multipleDestination := true,
      hostMap := fun k =>
        if k = SemKey.tag dataSemantics then some host else s.hostMap k,
      portMap := fun k =>
        if k = SemKey.tag dataSemantics then some port else s.portMap k,
      socketTypeMap := fun k =>
        if k = SemKey.tag dataSemantics then some socketType else s.socketTypeMap k,
      knownSemantics := s.knownSemantics ++ [dataSemantics],
      serverMode := fun x =>
        if x = (host, port) then some serverMode else s.serverMode x,
      defaultFbkId := fun x =>
        if x = (host, port) then
          some (defaultFbkSocketId ++ " - " ++ host ++ ":" ++ toString port)
        else s.defaultFbkId x,
      holdConnection := fun x =>
        if x = (host, port) then some holdConn else s.holdConnection x })

/-- `NetworkTarget.start` (target.py, lines 629-656): reset the socket
registries and all feedback bookkeeping counters.  The call to
`_connect_to_additional_feedback_sockets()` performs network I/O and is
elided (no claim depends on the sockets it opens), as is the overridable
`initialize()` hook and the `_initial_sending_id` marker used only inside
`_send_data`. -/
def startNT (s : NT) : NT :=
  { s with
    hclientHp2sock := fun _ => none, hclientSock2hp := fun _ => none,
    lastClientSock2hp := fun _ => none, lastClientHp2sock := fun _ => none,
    additionalFbkSockets := [], additionalFbkIds := [],
    additionalFbkLengths := [],
    feedbackHandled := none, feedbackThreadQty := 0, feedbackCompleteCpt := 0,
    sendingId := 0, firstSendDataCall := true, threadCpt := 0,
    lastAckDate := none }

/-- `NetworkTarget.add_additional_feedback_interface` (target.py, lines
461-474): bump the default-id counter, derive the default feedback id when
none is given (asserting that a user-supplied id does not start with the
reserved prefix), record the descriptor, and set
`hold_connection[(host, port)] = True`. -/
def addAdditionalFeedbackInterface (host : String) (port : Nat)
    (socketType : List Nat) (fbkId : Option String) (fbkLength : Option Nat)
    (serverMode : Bool) (s : NT) : Option String × NT :=
  let s1 := { s with defaultAdditionalFbkId := s.defaultAdditionalFbkId + 1 }
  let idOk := match fbkId with
    | none => true
    | some f => ¬ f.startsWith "Default Additional Feedback ID"
  let fid := match fbkId with
    | none => "Default Additional Feedback ID " ++ toString s1.defaultAdditionalFbkId
    | some f => f
  if idOk then
    (none, { s1 with
      additionalFbkDesc :=
        s1.additionalFbkDesc ++ [(fid, (host, port, socketType, fbkLength, serverMode))],
      holdConnection := fun x =>
        if x = (host, port) then some true else s1.holdConnection x })
  else (some "AssertionError", s1)

/-- A payload node, as seen by `NetworkTarget`: only its semantics matter
here.  `none` semantics embeds `get_semantics()` returning `None`. -/
structure PyNode where
  semantics : Option (List String)
deriving DecidableEq, Repr

/-- A `Data` container: an optional modeled node and optional raw bytes. -/
structure PyData where
  node : Option PyNode
  raw : Option (List Nat)
deriving DecidableEq, Repr

/-- Modelled from the spec: `NodeSemanticsCriteria.what_match_from` lives in
`framework/data_model.py`, which is not part of the sources under
verification.  Per the spec, resolution "inspects the payload's semantic
criteria, intersects with known tags, returns the first match": the result
is the known-tag list filtered to the tags carried by the payload, in
registration order. -/
def whatMatchFrom (crit : List String) (known : List String) : List String :=
  known.filter (fun t => crit.contains t)

/-- `NetworkTarget._get_data_semantic_key` (target.py, lines 769-789):
`None` data, or data without a node, yields `UNKNOWN_SEMANTIC` (the empty-raw
error print is a side effect only); otherwise the node's semantics are
matched against `known_semantics` and the first match is the key, with
`UNKNOWN_SEMANTIC` when there is no match or no semantics. -/
def getDataSemanticKey (s : NT) (d : Option PyData) : SemKey :=
  match d with
  | none => SemKey.unknown
  | some data =>
    match data.node with
    | none => SemKey.unknown
    | some node =>
      let matchingCrit := match node.semantics with
        | some sem => whatMatchFrom sem s.knownSemantics
        | none => []
      match matchingCrit with
      | [] => SemKey.unknown
      | k :: _ => SemKey.tag k

/-- `NetworkTarget._get_net_info_from` (target.py, lines 791-795): map the
semantic key through `_host`, `_port`, `_socket_type`, then read
`server_mode` under the resulting `(host, port)` pair.  A missing dictionary
key (Python `KeyError`) is `none`. -/
def getNetInfoFrom (s : NT) (d : Option PyData) :
    Option (String × Nat × List Nat × Bool) :=
  let key := getDataSemanticKey s d
  match s.hostMap key, s.portMap key, s.socketTypeMap key with
  | some host, some port, some st =>
    match s.serverMode (host, port) with
    | some sm => some (host, port, st, sm)
    | none => none
  | _, _, _ => none

/-- Written from the spec's words, for comparison with `getNetInfoFrom`: the
"default (unclassified) endpoint" of a target state, i.e. the endpoint
stored under the reserved unclassified key. -/
def unclassifiedNetInfo (s : NT) : Option (String × Nat × List Nat × Bool) :=
  match s.hostMap SemKey.unknown, s.portMap SemKey.unknown,
        s.socketTypeMap SemKey.unknown with
  | some host, some port, some st =>
    match s.serverMode (host, port) with
    | some sm => some (host, port, st, sm)
    | none => none
  | _, _, _ => none

/-- `NetworkTarget._connect_to_target` (target.py, lines 797-832).  Reading
`hold_connection[(host, port)]` on an unregistered pair is a `KeyError`.
When the pair is held and a socket is stored, that socket is returned.
Otherwise a fresh socket is created; for `SOCK_RAW` the port is asserted to
be `ntohs(proto)` and a failing `bind` makes the function `return False`,
while for stream/datagram a failing `connect` makes it `return None`; on
success (`setblocking(0)` has no sequential content) the socket is stored in
both held-client registries when the pair is held, and returned.  `bindOk`
and `connectOk` are the network oracle. -/
def connectToTarget (bindOk connectOk : Bool) (host : String) (port : Nat)
    (socketType : List Nat) (s : NT) : Option String × PyValue × NT :=
  match s.holdConnection (host, port) with
  | none => (some "KeyError", PyValue.noneV, s)
  | some hold =>
    if hold && (s.hclientHp2sock (host, port)).isSome then
      (none, PyValue.sockV ((s.hclientHp2sock (host, port)).getD 0), s)
    else
      let proto := if socketType.length = 2 then 0 else socketType.getD 2 0
      let sockType := socketType.getD 1 0
      let h := s.nextHandle
      let s1 : NT := { s with nextHandle := h + 1 }
      let finish : NT → Option String × PyValue × NT := fun s2 =>
        if hold then
          (none, PyValue.sockV h, { s2 with
            hclientSock2hp := fun x =>
              if x = h then some (host, port) else s2.hclientSock2hp x,
            hclientHp2sock := fun x =>
              if x = (host, port) then some h else s2.hclientHp2sock x })
        else (none, PyValue.sockV h, s2)
      if sockType = SOCK_RAW then
        if port ≠ ntohs proto then (some "AssertionError", PyValue.noneV, s1)
        else if bindOk = false then (none, PyValue.boolV false, s1)
        else finish s1
      else
        if connectOk = false then (none, PyValue.noneV, s1)
        else finish s1

/-- Outcome of the client-mode branch of `send_data`: either the error
feedback path was taken, or execution proceeded into `_send_data` with the
value returned by `_connect_to_target`. -/
inductive SendPhase where
  | errorRecorded : SendPhase
  | proceededToSend : PyValue → SendPhase
  | aborted : SendPhase
deriving DecidableEq, Repr

/-- The warning message of `send_data` (target.py, line 710). -/
def warnUnableMsg (host : String) (port : Nat) : String :=
  ">>> WARNING: unable to send data to " ++ host ++ ":" ++ toString port ++ " <<<"

/-- Client-mode branch of `NetworkTarget.send_data` (target.py, lines
706-714): call `_connect_to_target`; when its result `is None`, set error
code -1 and add the warning under `_INTERNALS_ID`, returning normally
without sending; for any other result (a socket, but also the `False`
returned on a raw bind failure) fall through to `_send_data`. -/
def sendDataClientBranch (bindOk connectOk : Bool) (host : String) (port : Nat)
    (socketType : List Nat) (now : Nat) (s : NT) :
    Option String × SendPhase × NT :=
  match connectToTarget bindOk connectOk host port socketType s with
  | (some e, _, s1) => (some e, SendPhase.aborted, s1)
  | (none, v, s1) =>
    if v = PyValue.noneV then
      let fb := addFbkFrom (setErrorCode (-1) s1.feedback) internalsId
        (warnUnableMsg host port) now
      (none, SendPhase.errorRecorded, { s1 with feedback := fb })
    else (none, SendPhase.proceededToSend v, s1)

/-- The close performed at the end of `_collect_feedback_from` for each
feedback socket (target.py, lines 1108-1117): after folding the chunks into
the feedback store, the socket is closed unless it is still registered as an
additional feedback socket, a held client socket, or a held server-side peer
socket.  The `is None` guards of the source (for a stopped target) always
fail here since the registries are modelled as present. -/
def closeSocketAfterFbk (hnd : Nat) (s : NT) : NT :=
  if s.additionalFbkSockets.contains hnd = false
      ∧ (s.hclientSock2hp hnd).isNone
      ∧ (s.lastClientSock2hp hnd).isNone then
    { s with closedHandles := s.closedHandles ++ [hnd] }
  else s

/-- Counter-updating part of `NetworkTarget._before_sending_data` (target.py,
lines 1253-1258): a framework-initiated call clears the last ack date, arms
the additional-feedback pass, sets `_feedback_handled = False` and bumps
`_sending_id`; a user-code call only disarms the additional-feedback pass.
The payload-side processing of the remainder of the method (MAC-address
injection for raw sockets, custom pre-emission hook) mutates the data, not
the target state, and is elided. -/
def beforeSendingData (fromFmk : Bool) (s : NT) : NT :=
  if fromFmk then
    { s with lastAckDate := none, firstSendDataCall := true,
             feedbackHandled := some false, sendingId := s.sendingId + 1 }
  else { s with firstSendDataCall := false }

/-- Counter-updating part of `NetworkTarget._start_fbk_collector` (target.py,
lines 1229-1239): bump `_thread_cpt`, and `feedback_thread_qty` when the
operation is framework-initiated.  The spawned worker itself runs
`_collect_feedback_from`, whose completion is the `feedbackComplete`
transition. -/
def startFbkCollector (fromFmk : Bool) (s : NT) : NT :=
  let s1 := { s with threadCpt := s.threadCpt + 1 }
  if fromFmk then { s1 with feedbackThreadQty := s1.feedbackThreadQty + 1 } else s1

/-- `NetworkTarget._feedback_complete` (target.py, lines 1247-1251): bump
`feedback_complete_cpt` when the completing operation id is the latest one;
then, whenever the completion count has reached the spawned-worker count,
set `_feedback_handled = True`. -/
def feedbackComplete (sid : Nat) (s : NT) : NT :=
  let s1 := if sid = s.sendingId then
    { s with feedbackCompleteCpt := s.feedbackCompleteCpt + 1 } else s
  if s1.feedbackCompleteCpt = s1.feedbackThreadQty then
    { s1 with feedbackHandled := some true }
  else s1

/-- `NetworkTarget.is_target_ready_for_new_data` (target.py, lines
1294-1301): the Python truthiness of `_feedback_handled`, whose value is
always `None`, `False` or `True`. -/
def isTargetReadyForNewData (s : NT) : Bool :=
  match s.feedbackHandled with
  | some true => true
  | _ => false

/-- One attempted `send`/`sendto` call inside the write loop of `_send_data`:
either it returns a byte count, or it raises a socket error
(would-block, message-too-long, or anything else). -/
inductive SendEvent where
  | okSent : Nat → SendEvent
  | errWouldBlock : SendEvent
  | errMsgSize : SendEvent
  | errOther : SendEvent
deriving DecidableEq, Repr

/-- Exit of the write loop of `_send_data`: normal loop exit with the final
`totalsent` and `send_retry`, the `EMSGSIZE` break (which records a
feedback message and continues the operation), or the raised `TargetStuck`
with a flag telling whether the socket was closed first.
`oracleExhausted` marks a run whose event script was too short; no theorem
is about it. -/
inductive WriteOutcome where
  | completed : Nat → Nat → WriteOutcome
  | msgTooLong : Nat → Nat → WriteOutcome
  | targetStuck : Bool → WriteOutcome
  | oracleExhausted : WriteOutcome
deriving DecidableEq, Repr

/-- The write loop of `NetworkTarget._send_data` (target.py, lines
1180-1205): `while totalsent < len(raw_data) and send_retry < 10`, one
send attempt per iteration.  On a socket error `send_retry` is bumped, then
`EWOULDBLOCK` sleeps and retries, `EMSGSIZE` records a too-long message and
breaks, and any other error raises `TargetStuck` at once.  A successful
write of 0 bytes closes the socket and raises `TargetStuck`; otherwise
`totalsent` advances. -/
def writeLoop (events : List SendEvent) (len totalsent sendRetry : Nat) :
    WriteOutcome :=
  if totalsent < len ∧ sendRetry < 10 then
    match events with
    | [] => WriteOutcome.oracleExhausted
    | e :: rest =>
      match e with
      | SendEvent.okSent 0 => WriteOutcome.targetStuck true
      | SendEvent.okSent (n+1) => writeLoop rest len (totalsent + (n+1)) sendRetry
      | SendEvent.errWouldBlock => writeLoop rest len totalsent (sendRetry + 1)
      | SendEvent.errMsgSize => WriteOutcome.msgTooLong totalsent (sendRetry + 1)
      | SendEvent.errOther => WriteOutcome.targetStuck false
  else WriteOutcome.completed totalsent sendRetry

/-- The default socket type of the source: `(socket.AF_INET,
socket.SOCK_STREAM)`. -/
def sockTypeStream : List Nat := [AF_INET, SOCK_STREAM]

/-- A raw link-layer socket type `(socket.AF_PACKET, socket.SOCK_RAW, 768)`:
768 is `ETH_P_ALL` in network byte order, so the matching port is
`ntohs 768 = 3`. -/
def sockTypeRawEth : List Nat := [AF_PACKET, SOCK_RAW, 768]

/-- The state produced by the constructor for the default interface
(`localhost:12345`, stream, client mode, `hold_connection=False`), before
`start()`. -/
def ntDefaultRaw : NT :=
  (mkNetworkTarget "localhost" 12345 sockTypeStream SemKey.unknown
    false false).toOption.getD ntEmpty

/-- A started client-mode target on the default interface with
`hold_connection=False`. -/
def ntDefaultClient : NT := startNT ntDefaultRaw

/-- A started client-mode target on the default interface with
`hold_connection=True`. -/
def ntHoldClient : NT :=
  startNT ((mkNetworkTarget "localhost" 12345 sockTypeStream SemKey.unknown
    false true).toOption.getD ntEmpty)

/-- A started client-mode target on a raw link-layer interface
(`eth0`, port 3 = `ntohs 768`). -/
def ntRawClient : NT :=
  startNT ((mkNetworkTarget "eth0" 3 sockTypeRawEth SemKey.unknown
    false false).toOption.getD ntEmpty)

/-- `ntDefaultClient` after registering tag `"T1"` on `("fbk-host", 80)` with
`server_mode=True`. -/
def ntRegT1 : NT :=
  (registerNewInterface "fbk-host" 80 sockTypeStream "T1" true false
    ntDefaultClient).2

/-- `ntRegT1` after additionally registering tag `"T2"` on the same pair
`("fbk-host", 80)` with `server_mode=False`. -/
def ntRegT1T2 : NT :=
  (registerNewInterface "fbk-host" 80 sockTypeStream "T2" false false ntRegT1).2

/-- A payload carrying exactly the semantics tag `"T1"`. -/
def payloadT1 : PyData :=
  { node := some { semantics := some ["T1"] }, raw := some [] }

/-!
Theorems settling the claims.
-/

/-- Claim C10: `Target.set_feedback_timeout(t)` stores `t` and returns
normally exactly when `t ≥ 0`; for `t < 0` the guarding assertion raises
`AssertionError` before the assignment, leaving `feedback_timeout`
unchanged, so under the precondition `t ≥ 0` the failure branch is
unreachable. -/
theorem setFeedbackTimeoutBase_spec (t : ℚ) (s : BaseTarget) :
    (setFeedbackTimeoutBase t s).2.feedbackTimeout
      = (if 0 ≤ t then some t else s.feedbackTimeout)
  ∧ ((setFeedbackTimeoutBase t s).1 = none ↔ 0 ≤ t)
  ∧ ((setFeedbackTimeoutBase t s).1 = some "AssertionError" ↔ t < 0) := by
  unfold setFeedbackTimeoutBase
  split_ifs with h
  · exact ⟨rfl, by simp [h], by simp [not_lt.mpr h]⟩
  · exact ⟨rfl, by simp [h], by simp [lt_of_not_ge h]⟩

/-- Claim C1: readiness of the target is the truthiness of
`_feedback_handled`: it is false right after `start()`; a framework-initiated
send begin (`_before_sending_data` with `from_fmk=True`) forces it false; a
user-code send begin and a worker spawn (`_start_fbk_collector`) leave it
unchanged, so once true it stays true until the next framework-initiated
send begins; and a feedback completion (`_feedback_complete sid`) makes it
true exactly when the completion count — bumped only when `sid` is the
latest operation id — has reached the number of workers spawned for
framework-initiated operations (once true it also stays true). -/
theorem isTargetReady_lifecycle (s : NT) (b : Bool) (sid : Nat) :
    isTargetReadyForNewData (startNT s) = false
  ∧ isTargetReadyForNewData (beforeSendingData true s) = false
  ∧ isTargetReadyForNewData (beforeSendingData false s) = isTargetReadyForNewData s
  ∧ isTargetReadyForNewData (startFbkCollector b s) = isTargetReadyForNewData s
  ∧ isTargetReadyForNewData (feedbackComplete sid s)
      = (decide (s.feedbackCompleteCpt + (if sid = s.sendingId then 1 else 0)
          = s.feedbackThreadQty) || isTargetReadyForNewData s) := by
  refine ⟨rfl, rfl, rfl, ?_, ?_⟩
  · unfold startFbkCollector
    cases b <;> rfl
  · unfold feedbackComplete
    by_cases hsid : sid = s.sendingId <;>
      simp only [hsid, if_true, if_false, reduceIte] <;>
      by_cases hc : s.feedbackCompleteCpt + 1 = s.feedbackThreadQty <;>
      by_cases hc0 : s.feedbackCompleteCpt = s.feedbackThreadQty <;>
      simp_all [isTargetReadyForNewData]

/-- Claim C6: inside the write loop of `_send_data`, while the loop is still
running (`totalsent < len` and `send_retry < 10`), a successful write that
returns 0 bytes raises `TargetStuck` after closing the socket, and a socket
error that is neither `EWOULDBLOCK` nor `EMSGSIZE` raises `TargetStuck`
immediately (no further events of the script are consumed: no internal
retry). -/
theorem writeLoop_targetStuck (events : List SendEvent)
    (len totalsent sendRetry : Nat)
    (h1 : totalsent < len) (h2 : sendRetry < 10) :
    writeLoop (SendEvent.okSent 0 :: events) len totalsent sendRetry
      = WriteOutcome.targetStuck true
  ∧ writeLoop (SendEvent.errOther :: events) len totalsent sendRetry
      = WriteOutcome.targetStuck false := by
  constructor <;> (unfold writeLoop; rw [if_pos ⟨h1, h2⟩])

/-- Witness for C6 at a concrete loop state: 4 bytes to send, nothing sent
yet, no retry so far. -/
theorem writeLoop_targetStuck_witness :
    writeLoop [SendEvent.okSent 0] 4 0 0 = WriteOutcome.targetStuck true
  ∧ writeLoop [SendEvent.errOther] 4 0 0 = WriteOutcome.targetStuck false :=
  writeLoop_targetStuck [] 4 0 0 (by decide) (by decide)

/-- Claim C9: socket-type validation fails exactly on a 2-tuple whose second
element is not `SOCK_STREAM`/`SOCK_DGRAM` or a 3-tuple whose second element
is not `SOCK_RAW`; a tuple of any other length validates, and construction
and registration then succeed exactly when validation does. -/
theorem isValidSocketType_spec (st : List Nat) (host : String) (p : Nat)
    (tg : String) (dsem : SemKey) (sm hc : Bool) (s : NT) :
    (isValidSocketType st = false ↔
      ((st.length = 2 ∧ ¬(st.getD 1 0 = SOCK_STREAM ∨ st.getD 1 0 = SOCK_DGRAM))
        ∨ (st.length = 3 ∧ st.getD 1 0 ≠ SOCK_RAW)))
  ∧ (st.length ≠ 2 → st.length ≠ 3 → isValidSocketType st = true)
  ∧ ((mkNetworkTarget host p st dsem sm hc).toOption.isSome = isValidSocketType st)
  ∧ ((registerNewInterface host p st tg sm hc s).1 = none
      ↔ isValidSocketType st = true) := by
  have hmk : (mkNetworkTarget host p st dsem sm hc).toOption.isSome
      = isValidSocketType st := by
    by_cases hv : isValidSocketType st = false
    · simp [mkNetworkTarget, hv, Except.toOption]
    · rw [Bool.not_eq_false] at hv
      unfold mkNetworkTarget
      rw [if_neg (by simp [hv])]
      have hst : ∀ s0 : NT, setTimeout 6 4 s0
          = (none, setFeedbackTimeoutSpecificNT 6
              { s0 with sendingDelay := 4, feedbackTimeout := some 6 }) := by
        intro s0
        unfold setTimeout setFeedbackTimeoutNT
        rw [if_pos (by norm_num : (4:ℚ) < 6), if_pos (by norm_num : (0:ℚ) ≤ 6)]
      simp only [hst]
      simp [Except.toOption, hv]
  refine ⟨?_, ?_, hmk, ?_⟩
  · rcases st with _ | ⟨f, _ | ⟨t2, _ | ⟨pr, _ | ⟨r4, rest⟩⟩⟩⟩ <;>
      simp [isValidSocketType]
  · rcases st with _ | ⟨f, _ | ⟨t2, _ | ⟨pr, _ | ⟨r4, rest⟩⟩⟩⟩ <;>
      simp [isValidSocketType]
  · by_cases hv : isValidSocketType st = false <;>
      simp_all [registerNewInterface]

/-- Witness for C9 at a 1-element socket-type tuple: validation returns true
and the constructor succeeds. -/
theorem isValidSocketType_spec_witness :
    isValidSocketType [7] = true
  ∧ (mkNetworkTarget "localhost" 12345 [7] SemKey.unknown
      false false).toOption.isSome = isValidSocketType [7] :=
  ⟨(isValidSocketType_spec [7] "localhost" 12345 "t" SemKey.unknown false false
      ntEmpty).2.1 (by decide) (by decide),
   (isValidSocketType_spec [7] "localhost" 12345 "t" SemKey.unknown false false
      ntEmpty).2.2.1⟩

/-- Claim C4 (amended): the constructor establishes sending-delay <
feedback-timeout strictly; `set_timeout` succeeds exactly when
`sending_delay < fbk_timeout` and `0 ≤ fbk_timeout`, rejecting anything else
with an `AssertionError` at call time, and on success the strict invariant
holds; `set_feedback_timeout(t)` for `t > 0` adjusts the sending-delay only
when it strictly exceeds `t`, guaranteeing sending-delay ≤ feedback-timeout
(equality can remain when the old delay equals `t`); and for `t = 0` the
sending-delay is deliberately left unchanged while the feedback-timeout
becomes 0, so the strict invariant is not preserved. -/
theorem timeoutInvariant_spec (s s0 : NT) (host : String) (p : Nat)
    (st : List Nat) (dsem : SemKey) (sm hc : Bool) (f d t : ℚ) :
    (mkNetworkTarget host p st dsem sm hc = Except.ok s0 →
      s0.sendingDelay < s0.fbTimeout)
  ∧ ((setTimeout f d s).1 = none ↔ (d < f ∧ 0 ≤ f))
  ∧ ((setTimeout f d s).1 = none →
      (setTimeout f d s).2.sendingDelay < (setTimeout f d s).2.fbTimeout)
  ∧ (0 < t → (setFeedbackTimeoutNT t s).1 = none
      ∧ (setFeedbackTimeoutNT t s).2.sendingDelay
          ≤ (setFeedbackTimeoutNT t s).2.fbTimeout)
  ∧ ((setFeedbackTimeoutNT 0 s).2.sendingDelay = s.sendingDelay
      ∧ (setFeedbackTimeoutNT 0 s).2.fbTimeout = 0) := by
  have hst : ∀ s1 : NT, setTimeout 6 4 s1
      = (none, setFeedbackTimeoutSpecificNT 6
          { s1 with sendingDelay := 4, feedbackTimeout := some 6 }) := by
    intro s1
    unfold setTimeout setFeedbackTimeoutNT
    rw [if_pos (by norm_num : (4:ℚ) < 6), if_pos (by norm_num : (0:ℚ) ≤ 6)]
  refine ⟨?_, ?_, ?_, ?_, ?_⟩
  · intro h
    unfold mkNetworkTarget at h
    by_cases hv : isValidSocketType st = false
    · simp [hv] at h
    · rw [if_neg hv] at h
      simp only [hst] at h
      injection h with h
      subst h
      unfold setFeedbackTimeoutSpecificNT
      rw [if_neg (by norm_num : ¬ (6:ℚ) = 0)]
      norm_num
  · unfold setTimeout setFeedbackTimeoutNT
    split_ifs with h1 h2 <;> simp_all
  · intro h
    have h12 : d < f ∧ 0 ≤ f := by
      unfold setTimeout setFeedbackTimeoutNT at h
      split_ifs at h with h1 h2
      simp_all
    unfold setTimeout setFeedbackTimeoutNT
    rw [if_pos h12.1, if_pos h12.2]
    unfold setFeedbackTimeoutSpecificNT
    by_cases hf0 : f = 0
    · rw [if_pos hf0]
      show d < f
      exact h12.1
    · rw [if_neg hf0]
      rw [if_neg (by exact not_lt.mpr h12.1.le)]
      exact h12.1
  · intro ht
    unfold setFeedbackTimeoutNT
    rw [if_pos ht.le]
    refine ⟨rfl, ?_⟩
    unfold setFeedbackTimeoutSpecificNT
    rw [if_neg ht.ne']
    by_cases hgt : s.sendingDelay > t
    · rw [if_pos hgt]
      exact max_le (by linarith) ht.le
    · rw [if_neg hgt]
      exact le_of_not_lt hgt
  · unfold setFeedbackTimeoutNT
    rw [if_pos le_rfl]
    unfold setFeedbackTimeoutSpecificNT
    rw [if_pos rfl]
    exact ⟨rfl, rfl⟩

/-- Claim C4 counterexample: on the freshly constructed default target
(sending-delay 4, feedback-timeout 6), `set_feedback_timeout(0)` succeeds,
leaves the sending-delay at 4 and sets the feedback-timeout to 0, violating
the claimed invariant `sending-delay < feedback-timeout`. -/
theorem timeoutInvariant_counterexample :
    ntDefaultRaw.sendingDelay = 4 ∧ ntDefaultRaw.fbTimeout = 6
  ∧ (setFeedbackTimeoutNT 0 ntDefaultRaw).1 = none
  ∧ (setFeedbackTimeoutNT 0 ntDefaultRaw).2.sendingDelay = 4
  ∧ (setFeedbackTimeoutNT 0 ntDefaultRaw).2.fbTimeout = 0
  ∧ ¬((setFeedbackTimeoutNT 0 ntDefaultRaw).2.sendingDelay
        < (setFeedbackTimeoutNT 0 ntDefaultRaw).2.fbTimeout) := by
  refine ⟨by decide, by decide, by decide, by decide, by decide, ?_⟩
  rw [show (setFeedbackTimeoutNT 0 ntDefaultRaw).2.sendingDelay = 4 from by decide,
      show (setFeedbackTimeoutNT 0 ntDefaultRaw).2.fbTimeout = 0 from by decide]
  norm_num

/-- Witness for C4 at concrete states: the default constructed target, a
successful `set_timeout(6, 4)`, and `set_feedback_timeout` at the positive
value 1 and at 0. -/
theorem timeoutInvariant_spec_witness :
    ntDefaultRaw.sendingDelay < ntDefaultRaw.fbTimeout
  ∧ ((setTimeout 6 4 ntEmpty).1 = none ↔ ((4:ℚ) < 6 ∧ (0:ℚ) ≤ 6))
  ∧ (setTimeout 6 4 ntEmpty).2.sendingDelay < (setTimeout 6 4 ntEmpty).2.fbTimeout
  ∧ ((setFeedbackTimeoutNT 1 ntEmpty).1 = none
      ∧ (setFeedbackTimeoutNT 1 ntEmpty).2.sendingDelay
          ≤ (setFeedbackTimeoutNT 1 ntEmpty).2.fbTimeout)
  ∧ ((setFeedbackTimeoutNT 0 ntEmpty).2.sendingDelay = ntEmpty.sendingDelay
      ∧ (setFeedbackTimeoutNT 0 ntEmpty).2.fbTimeout = 0) :=
  ⟨(timeoutInvariant_spec ntEmpty ntDefaultRaw "localhost" 12345 sockTypeStream
      SemKey.unknown false false 6 4 1).1 rfl,
   (timeoutInvariant_spec ntEmpty ntDefaultRaw "localhost" 12345 sockTypeStream
      SemKey.unknown false false 6 4 1).2.1,
   (timeoutInvariant_spec ntEmpty ntDefaultRaw "localhost" 12345 sockTypeStream
      SemKey.unknown false false 6 4 1).2.2.1 (by decide),
   (timeoutInvariant_spec ntEmpty ntDefaultRaw "localhost" 12345 sockTypeStream
      SemKey.unknown false false 6 4 1).2.2.2.1 (by norm_num),
   (timeoutInvariant_spec ntEmpty ntDefaultRaw "localhost" 12345 sockTypeStream
      SemKey.unknown false false 6 4 1).2.2.2.2⟩

/-- Claim C2 (amended): registering tag T and resolving a payload that
matches T (and no previously known tag) yields exactly the endpoint just
registered for T — address, port, transport, and the server-mode stored for
T's `(address, port)` pair, which at that moment is T's own; when several
known tags match, the first one in registration order is taken; and a null
payload, a payload without a node, without semantics, or matching no known
tag always resolves to the unclassified endpoint.  (The server-mode
component is keyed by `(address, port)`, so a later registration sharing the
pair can overwrite it: see the counterexample.) -/
theorem resolveEndpoint_spec (s : NT) (host : String) (p : Nat) (st : List Nat)
    (tg : String) (sm hc : Bool) (d : PyData) (nd : PyNode) (crit : List String)
    (t1 : String) (rest : List String) :
    (isValidSocketType st = true → d.node = some nd → nd.semantics = some crit →
      tg ∈ crit →
      (∀ x ∈ s.knownSemantics, x ∉ crit) →
      getNetInfoFrom (registerNewInterface host p st tg sm hc s).2 (some d)
        = some (host, p, st, sm))
  ∧ (d.node = some nd → nd.semantics = some crit →
      whatMatchFrom crit s.knownSemantics = t1 :: rest →
      getDataSemanticKey s (some d) = SemKey.tag t1)
  ∧ getNetInfoFrom s none = unclassifiedNetInfo s
  ∧ (d.node = none → getNetInfoFrom s (some d) = unclassifiedNetInfo s)
  ∧ (d.node = some nd → nd.semantics = none →
      getNetInfoFrom s (some d) = unclassifiedNetInfo s)
  ∧ (d.node = some nd → nd.semantics = some crit →
      (∀ x ∈ s.knownSemantics, x ∉ crit) →
      getNetInfoFrom s (some d) = unclassifiedNetInfo s) := by
  have hfilter : ∀ (cr kn : List String), (∀ x ∈ kn, x ∉ cr) →
      kn.filter (fun x => decide (x ∈ cr)) = [] := by
    intro cr kn hk
    induction kn with
    | nil => rfl
    | cons a l ih =>
      rw [List.filter_cons, if_neg (by simp [hk a (List.mem_cons_self a l)])]
      exact ih (fun x hx => hk x (List.mem_cons_of_mem a hx))
  refine ⟨?_, ?_, rfl, ?_, ?_, ?_⟩
  · intro hv hnode hsem htag hknown
    unfold registerNewInterface
    rw [if_neg (by simp [hv])]
    unfold getNetInfoFrom getDataSemanticKey whatMatchFrom
    simp only [hnode, hsem]
    simp [List.filter_append, hfilter crit s.knownSemantics hknown, htag]
  · intro hnode hsem hmatch
    unfold getDataSemanticKey
    simp only [hnode, hsem, hmatch]
  · intro hnode
    unfold getNetInfoFrom unclassifiedNetInfo getDataSemanticKey
    simp only [hnode]
  · intro hnode hsem
    unfold getNetInfoFrom unclassifiedNetInfo getDataSemanticKey
    simp only [hnode, hsem]
  · intro hnode hsem hknown
    unfold getNetInfoFrom unclassifiedNetInfo getDataSemanticKey whatMatchFrom
    simp only [hnode, hsem]
    simp [hfilter crit s.knownSemantics hknown]

/-- Claim C2 counterexample: register tag `"T1"` on `("fbk-host", 80)` with
server-mode `True`, then tag `"T2"` on the same pair with server-mode
`False`; a payload tagged `"T1"` now resolves with server-mode `False`, not
the server-mode registered for `"T1"`. -/
theorem resolveEndpoint_counterexample :
    getNetInfoFrom ntRegT1T2 (some payloadT1)
      = some ("fbk-host", 80, sockTypeStream, false)
  ∧ getNetInfoFrom ntRegT1T2 (some payloadT1)
      ≠ some ("fbk-host", 80, sockTypeStream, true) := by
  exact ⟨by decide, by decide⟩

/-- Witness for C2: registering `"T1"` and resolving a `"T1"`-tagged payload
returns the registered endpoint; the default target resolves null,
node-less, semantics-less and unmatched payloads to the unclassified
endpoint; on `ntRegT1` the first matching tag is taken. -/
theorem resolveEndpoint_spec_witness :
    getNetInfoFrom (registerNewInterface "fbk-host" 80 sockTypeStream "T1"
        true false ntDefaultClient).2 (some payloadT1)
      = some ("fbk-host", 80, sockTypeStream, true)
  ∧ getDataSemanticKey ntRegT1 (some payloadT1) = SemKey.tag "T1"
  ∧ getNetInfoFrom ntDefaultClient none = unclassifiedNetInfo ntDefaultClient
  ∧ getNetInfoFrom ntDefaultClient (some { node := none, raw := some [] })
      = unclassifiedNetInfo ntDefaultClient
  ∧ getNetInfoFrom ntDefaultClient
        (some { node := some { semantics := none }, raw := none })
      = unclassifiedNetInfo ntDefaultClient
  ∧ getNetInfoFrom ntDefaultClient (some payloadT1)
      = unclassifiedNetInfo ntDefaultClient :=
  ⟨(resolveEndpoint_spec ntDefaultClient "fbk-host" 80 sockTypeStream "T1" true
      false payloadT1 { semantics := some ["T1"] } ["T1"] "T1" []).1
      (by decide) rfl rfl (by decide) (by decide),
   (resolveEndpoint_spec ntRegT1 "fbk-host" 80 sockTypeStream "T1" true
      false payloadT1 { semantics := some ["T1"] } ["T1"] "T1" []).2.1
      rfl rfl (by decide),
   (resolveEndpoint_spec ntDefaultClient "fbk-host" 80 sockTypeStream "T1" true
      false payloadT1 { semantics := some ["T1"] } ["T1"] "T1" []).2.2.1,
   (resolveEndpoint_spec ntDefaultClient "fbk-host" 80 sockTypeStream "T1" true
      false { node := none, raw := some [] } { semantics := some ["T1"] }
      ["T1"] "T1" []).2.2.2.1 rfl,
   (resolveEndpoint_spec ntDefaultClient "fbk-host" 80 sockTypeStream "T1" true
      false { node := some { semantics := none }, raw := none }
      { semantics := none } ["T1"] "T1" []).2.2.2.2.1 rfl rfl,
   (resolveEndpoint_spec ntDefaultClient "fbk-host" 80 sockTypeStream "T1" true
      false payloadT1 { semantics := some ["T1"] } ["T1"] "T1" []).2.2.2.2.2
      rfl rfl (by decide)⟩

/-- Claim C3: with hold-connection true for `(A, P)` and no handle held yet,
a send's `_connect_to_target` creates and stores a handle, the
end-of-feedback close pass leaves it open (it is a held client handle), and
the next send's `_connect_to_target` returns the identity-same stored
handle; with hold-connection false, the first handle is closed by the
feedback pass that ends the first send, and the second send creates a
distinct fresh handle.  The freshness hypotheses say only that the
fresh-handle supply has not already been used in the socket registries. -/
theorem holdConnection_reuse (s : NT) (host : String) (p : Nat)
    (hfresh1 : s.nextHandle ∉ s.additionalFbkSockets)
    (hfresh2 : s.lastClientSock2hp s.nextHandle = none)
    (hfresh3 : s.hclientSock2hp s.nextHandle = none) :
    (s.holdConnection (host, p) = some true →
      s.hclientHp2sock (host, p) = none →
      (connectToTarget true true host p sockTypeStream s).2.1
          = PyValue.sockV s.nextHandle
      ∧ closeSocketAfterFbk s.nextHandle
            (connectToTarget true true host p sockTypeStream s).2.2
          = (connectToTarget true true host p sockTypeStream s).2.2
      ∧ (connectToTarget true true host p sockTypeStream
            (connectToTarget true true host p sockTypeStream s).2.2).2.1
          = PyValue.sockV s.nextHandle)
  ∧ (s.holdConnection (host, p) = some false →
      (connectToTarget true true host p sockTypeStream s).2.1
          = PyValue.sockV s.nextHandle
      ∧ s.nextHandle ∈ (closeSocketAfterFbk s.nextHandle
            (connectToTarget true true host p sockTypeStream s).2.2).closedHandles
      ∧ (connectToTarget true true host p sockTypeStream
            (closeSocketAfterFbk s.nextHandle
              (connectToTarget true true host p sockTypeStream s).2.2)).2.1
          = PyValue.sockV (s.nextHandle + 1)
      ∧ PyValue.sockV (s.nextHandle + 1) ≠ PyValue.sockV s.nextHandle) := by
  constructor
  · intro hhold hnone
    refine ⟨?_, ?_, ?_⟩ <;>
      simp [connectToTarget, closeSocketAfterFbk, hhold, hnone, hfresh1,
        hfresh2, hfresh3, sockTypeStream, AF_INET, SOCK_STREAM, SOCK_RAW]
  · intro hhold
    refine ⟨?_, ?_, ?_, ?_⟩ <;>
      simp [connectToTarget, closeSocketAfterFbk, hhold, hfresh1,
        hfresh2, hfresh3, sockTypeStream, AF_INET, SOCK_STREAM, SOCK_RAW]

/-- Witness for C3: on the started hold-connection target the two connects
return the same handle 0 and the feedback close pass keeps it open; on the
started non-hold target handle 0 is closed by the feedback pass and the
second connect returns the distinct handle 1. -/
theorem holdConnection_reuse_witness :
    ((connectToTarget true true "localhost" 12345 sockTypeStream ntHoldClient).2.1
        = PyValue.sockV 0
      ∧ closeSocketAfterFbk 0
            (connectToTarget true true "localhost" 12345 sockTypeStream ntHoldClient).2.2
          = (connectToTarget true true "localhost" 12345 sockTypeStream ntHoldClient).2.2
      ∧ (connectToTarget true true "localhost" 12345 sockTypeStream
            (connectToTarget true true "localhost" 12345 sockTypeStream ntHoldClient).2.2).2.1
          = PyValue.sockV 0)
  ∧ ((connectToTarget true true "localhost" 12345 sockTypeStream ntDefaultClient).2.1
        = PyValue.sockV 0
      ∧ 0 ∈ (closeSocketAfterFbk 0
            (connectToTarget true true "localhost" 12345 sockTypeStream
              ntDefaultClient).2.2).closedHandles
      ∧ (connectToTarget true true "localhost" 12345 sockTypeStream
            (closeSocketAfterFbk 0
              (connectToTarget true true "localhost" 12345 sockTypeStream
                ntDefaultClient).2.2)).2.1
          = PyValue.sockV 1
      ∧ PyValue.sockV 1 ≠ PyValue.sockV 0) :=
  ⟨(holdConnection_reuse ntHoldClient "localhost" 12345 (by decide) (by decide)
      (by decide)).1 (by decide) (by decide),
   (holdConnection_reuse ntDefaultClient "localhost" 12345 (by decide) (by decide)
      (by decide)).2 (by decide)⟩

/-- Claim C5 (code bug): for stream/datagram transport a failing connect
makes `_connect_to_target` return `None`, and `send_data` records error code
-1 with a warning under `_INTERNALS_ID` and returns normally; but for raw
transport a failing bind makes `_connect_to_target` `return False`
(target.py, line 817), which the caller's `if s is None` check (line 708)
does not catch: no error is recorded and `False` is passed to `_send_data`
in place of a socket. -/
theorem connectFailure_handling :
    (connectToTarget true false "localhost" 12345 sockTypeStream
        ntDefaultClient).2.1 = PyValue.noneV
  ∧ (sendDataClientBranch true false "localhost" 12345 sockTypeStream 7
        ntDefaultClient).2.1 = SendPhase.errorRecorded
  ∧ (sendDataClientBranch true false "localhost" 12345 sockTypeStream 7
        ntDefaultClient).2.2.feedback.errCode = -1
  ∧ lookupRef (sendDataClientBranch true false "localhost" 12345 sockTypeStream 7
        ntDefaultClient).2.2.feedback.collector internalsId
      = some [warnUnableMsg "localhost" 12345]
  ∧ (connectToTarget false true "eth0" 3 sockTypeRawEth ntRawClient).2.1
      = PyValue.boolV false
  ∧ (sendDataClientBranch false true "eth0" 3 sockTypeRawEth 7 ntRawClient).2.1
      = SendPhase.proceededToSend (PyValue.boolV false)
  ∧ (sendDataClientBranch false true "eth0" 3 sockTypeRawEth 7
        ntRawClient).2.2.feedback.errCode = 0 :=
  ⟨by decide, by decide, by decide, by decide, by decide, by decide, by decide⟩

/-- Claim C8: `add_additional_feedback_interface(host, port, ...)` with a
default feedback id returns normally and sets `hold_connection[(host,
port)]` to `True` whatever it was before, so every subsequent
`_connect_to_target` on that pair takes the held path: with no handle held
yet it stores the created handle, and the call after that returns the
identity-same handle. -/
theorem addFbkInterface_holds (s : NT) (host : String) (p : Nat)
    (st : List Nat) (fbkLength : Option Nat) (srv : Bool)
    (hfresh : s.hclientHp2sock (host, p) = none) :
    (addAdditionalFeedbackInterface host p st none fbkLength srv s).1 = none
  ∧ (addAdditionalFeedbackInterface host p st none fbkLength srv
        s).2.holdConnection (host, p) = some true
  ∧ (connectToTarget true true host p sockTypeStream
        (addAdditionalFeedbackInterface host p st none fbkLength srv
          s).2).2.2.hclientHp2sock (host, p) = some s.nextHandle
  ∧ (connectToTarget true true host p sockTypeStream
        (connectToTarget true true host p sockTypeStream
          (addAdditionalFeedbackInterface host p st none fbkLength srv
            s).2).2.2).2.1
      = PyValue.sockV s.nextHandle := by
  refine ⟨rfl, ?_, ?_, ?_⟩ <;>
    simp [addAdditionalFeedbackInterface, connectToTarget, hfresh,
      sockTypeStream, AF_INET, SOCK_STREAM, SOCK_RAW]

/-- Witness for C8 on the started default target, whose `(localhost, 12345)`
pair was registered with `hold_connection=False`. -/
theorem addFbkInterface_holds_witness :
    (addAdditionalFeedbackInterface "localhost" 12345 sockTypeStream none none
        false ntDefaultClient).1 = none
  ∧ (addAdditionalFeedbackInterface "localhost" 12345 sockTypeStream none none
        false ntDefaultClient).2.holdConnection ("localhost", 12345) = some true
  ∧ (connectToTarget true true "localhost" 12345 sockTypeStream
        (addAdditionalFeedbackInterface "localhost" 12345 sockTypeStream none
          none false ntDefaultClient).2).2.2.hclientHp2sock ("localhost", 12345)
      = some 0
  ∧ (connectToTarget true true "localhost" 12345 sockTypeStream
        (connectToTarget true true "localhost" 12345 sockTypeStream
          (addAdditionalFeedbackInterface "localhost" 12345 sockTypeStream none
            none false ntDefaultClient).2).2.2).2.1
      = PyValue.sockV 0 :=
  addFbkInterface_holds ntDefaultClient "localhost" 12345 sockTypeStream none
    false (by decide)

/-- Lookup skips a head entry with a different reference. -/
theorem lookupRef_cons_ne {α : Type} (a : String × List α)
    (l : List (String × List α)) (ref : String) (ha : ¬ a.1 = ref) :
    lookupRef (a :: l) ref = lookupRef l ref := by
  simp [lookupRef, List.find?_cons, ha]

/-- Lookup stops at a head entry with the matching reference. -/
theorem lookupRef_cons_eq {α : Type} (a : String × List α)
    (l : List (String × List α)) (ref : String) (ha : a.1 = ref) :
    lookupRef (a :: l) ref = some a.2 := by
  simp [lookupRef, List.find?_cons, ha]

/-- One unfolding step of `setRef` on a cons cell. -/
theorem setRef_cons {α : Type} (a : String × List α)
    (l : List (String × List α)) (ref : String) (v : List α) :
    setRef (a :: l) ref v
      = (if a.1 = ref then (a.1, v) else a) :: setRef l ref v := rfl

/-- Lookup after appending a fresh reference entry at the end of the ordered
dictionary. -/
theorem lookupRef_append_none {α : Type} (l : List (String × List α))
    (ref : String) (v : List α) (h : lookupRef l ref = none) :
    lookupRef (l ++ [(ref, v)]) ref = some v := by
  induction l with
  | nil => simp [lookupRef]
  | cons a tl ih =>
    by_cases ha : a.1 = ref
    · rw [lookupRef_cons_eq a tl ref ha] at h
      exact absurd h (by simp)
    · rw [lookupRef_cons_ne a tl ref ha] at h
      rw [List.cons_append, lookupRef_cons_ne a _ ref ha]
      exact ih h

/-- Lookup after replacing the value stored under a present reference. -/
theorem lookupRef_setRef {α : Type} (l : List (String × List α))
    (ref : String) (v w : List α) (h : lookupRef l ref = some w) :
    lookupRef (setRef l ref v) ref = some v := by
  induction l with
  | nil => simp [lookupRef] at h
  | cons a tl ih =>
    by_cases ha : a.1 = ref
    · rw [setRef_cons, if_pos ha]
      exact lookupRef_cons_eq (a.1, v) _ ref ha
    · rw [lookupRef_cons_ne a tl ref ha] at h
      rw [setRef_cons, if_neg ha, lookupRef_cons_ne a _ ref ha]
      exact ih h

/-- Claim C7 (amended): `add_fbk_from(ref, fbk)` initializes a new reference
with empty parallel lists, then appends `fbk` and its timestamp unless the
*stripped* form of `fbk` equals *any* fragment already stored for `ref` (not
merely the immediately preceding one), in which case nothing is appended.
The hypothesis is the parallel-dictionaries invariant maintained by the
class (a reference is present in both lists or in neither). -/
theorem addFbkFrom_spec (fb : TargetFeedback) (ref fbk : String) (now : Nat)
    (hsync : lookupRef fb.collector ref = none
      ↔ lookupRef fb.collectorTs ref = none) :
    lookupRef (addFbkFrom fb ref fbk now).collector ref
      = some (if ((lookupRef fb.collector ref).getD []).contains (pyStrip fbk)
              then (lookupRef fb.collector ref).getD []
              else ((lookupRef fb.collector ref).getD []) ++ [fbk])
  ∧ lookupRef (addFbkFrom fb ref fbk now).collectorTs ref
      = some (if ((lookupRef fb.collector ref).getD []).contains (pyStrip fbk)
              then (lookupRef fb.collectorTs ref).getD []
              else ((lookupRef fb.collectorTs ref).getD []) ++ [now]) := by
  unfold addFbkFrom
  cases hcol : lookupRef fb.collector ref with
  | none =>
    have hts : lookupRef fb.collectorTs ref = none := hsync.mp hcol
    have hcol2 : lookupRef (fb.collector ++ [(ref, [])]) ref = some [] :=
      lookupRef_append_none _ _ _ hcol
    have hts2 : lookupRef (fb.collectorTs ++ [(ref, [])]) ref = some [] :=
      lookupRef_append_none _ _ _ hts
    simp only [hcol, hts, hcol2, hts2, Option.getD_some, Option.getD_none,
      List.contains_nil, List.nil_append, Bool.false_eq_true, if_false]
    exact ⟨lookupRef_setRef _ _ _ _ hcol2, lookupRef_setRef _ _ _ _ hts2⟩
  | some w =>
    have hts : ∃ wts, lookupRef fb.collectorTs ref = some wts := by
      cases h2 : lookupRef fb.collectorTs ref with
      | none => exact absurd (hsync.mpr h2) (by simp [hcol])
      | some wts => exact ⟨wts, rfl⟩
    obtain ⟨wts, hts⟩ := hts
    simp only [hcol, hts, Option.getD_some]
    by_cases hdup : w.contains (pyStrip fbk)
    · simp only [hdup, if_true]
      exact ⟨hcol, hts⟩
    · simp only [hdup, Bool.false_eq_true, if_false]
      exact ⟨lookupRef_setRef _ _ _ _ hcol, lookupRef_setRef _ _ _ _ hts⟩

/-- Claim C7 counterexample: adding fragments `"x"`, `"y"`, `"x"` for the
same reference stores only `["x", "y"]` — the third fragment, identical to a
non-consecutive earlier one, is dropped, while the claim says it should be
appended. -/
theorem addFbkFrom_counterexample :
    (addFbkFrom (addFbkFrom (addFbkFrom fbEmpty "r" "x" 1) "r" "y" 2)
        "r" "x" 3).collector = [("r", ["x", "y"])]
  ∧ (addFbkFrom (addFbkFrom (addFbkFrom fbEmpty "r" "x" 1) "r" "y" 2)
        "r" "x" 3).collector ≠ [("r", ["x", "y", "x"])] :=
  ⟨by decide, by decide⟩

/-- Witness for C7 on a store already holding `["x"]` under `"r"`: adding
`"x"` again leaves the fragments and timestamps unchanged. -/
theorem addFbkFrom_spec_witness :
    lookupRef (addFbkFrom (addFbkFrom fbEmpty "r" "x" 1) "r" "x" 5).collector "r"
      = some ["x"]
  ∧ lookupRef (addFbkFrom (addFbkFrom fbEmpty "r" "x" 1) "r" "x" 5).collectorTs "r"
      = some [1] :=
  ⟨(addFbkFrom_spec (addFbkFrom fbEmpty "r" "x" 1) "r" "x" 5 (by decide)).1,
   (addFbkFrom_spec (addFbkFrom fbEmpty "r" "x" 1) "r" "x" 5 (by decide)).2⟩

end Fuddly
